import Mathlib

/-!
Shallow embedding of the Karbon rule engine (`rules.py`, `app.py`) and proofs
about it.  Python values are modelled by `PyVal` (numbers as rationals),
Python exceptions by `Except PyErr`.  Each engine function is translated
statement by statement from the source, preserving evaluation order,
short-circuiting of chained comparisons, negative list indexing, and the
exact points where the Python runtime would raise.
-/

set_option autoImplicit false

namespace Karbon

/-- Python runtime errors that the embedded engine code can raise. -/
inductive PyErr where
  | typeError
  | keyError
  | indexError
  | attributeError
  | zeroDivision
  deriving DecidableEq, Repr

/-- JSON-like Python values.  Numbers (int and float alike) are modelled as
rationals; the engine only ever produces and compares exact decimal values. -/
inductive PyVal where
  | none : PyVal
  | bool : Bool → PyVal
  | num : ℚ → PyVal
  | str : String → PyVal
  | list : List PyVal → PyVal
  | dict : List (String × PyVal) → PyVal

/-- A Python dict with string keys, as an association list (first binding wins,
matching insertion-ordered dicts with unique keys). -/
abbrev Dict := List (String × PyVal)

/-- Numeric view of a value: Python treats `bool` as a number (`True == 1`). -/
def toNum? : PyVal → Option ℚ
  | .bool b => some (if b then 1 else 0)
  | .num q => some q
  | _ => Option.none

/-- Lookup of a key in a dict, first binding wins. -/
def dictFind? : Dict → String → Option PyVal
  | [], _ => Option.none
  | (k, v) :: rest, key => if k = key then some v else dictFind? rest key

/-- Python `d.get(key)` on a dict: the value, or `None` when absent. -/
def dictGetD (d : Dict) (key : String) : PyVal :=
  (dictFind? d key).getD PyVal.none

/-- Python `d.get(key, dflt)` on a dict. -/
def dictGetDefault (d : Dict) (key : String) (dflt : PyVal) : PyVal :=
  (dictFind? d key).getD dflt

/-- Python `key in d` for a dict `d`. -/
def hasKey (d : Dict) (key : String) : Bool :=
  (dictFind? d key).isSome

mutual
/-- Python `==`.  Numeric values (including booleans) compare numerically,
strings as strings, `None` only to `None`, lists elementwise.  Two dicts are
compared as ordered association lists — the engine never compares two dicts,
so the deviation from Python's unordered dict equality is unreachable.
`==` never raises. -/
def pyEq : PyVal → PyVal → Bool
  | .none, .none => true
  | .bool a, .bool b => a == b
  | .bool a, .num q => (if a then (1 : ℚ) else 0) == q
  | .num q, .bool b => q == (if b then (1 : ℚ) else 0)
  | .num a, .num b => a == b
  | .str a, .str b => a == b
  | .list xs, .list ys => pyEqList xs ys
  | .dict xs, .dict ys => pyEqDict xs ys
  | _, _ => false

/-- Elementwise `==` on lists. -/
def pyEqList : List PyVal → List PyVal → Bool
  | [], [] => true
  | x :: xs, y :: ys => pyEq x y && pyEqList xs ys
  | _, _ => false

/-- Entrywise `==` on dict association lists. -/
def pyEqDict : List (String × PyVal) → List (String × PyVal) → Bool
  | [], [] => true
  | (k1, v1) :: xs, (k2, v2) :: ys => k1 == k2 && pyEq v1 v2 && pyEqDict xs ys
  | _, _ => false
end

/-- Python `v.get(key)`: only dicts have a `get` method; on anything else the
attribute lookup raises `AttributeError`. -/
def pyGetMethod : PyVal → String → Except PyErr PyVal
  | .dict d, key => .ok (dictGetD d key)
  | _, _ => .error .attributeError

/-- Python `len(v)`: defined for sized containers, `TypeError` otherwise. -/
def pyLen : PyVal → Except PyErr Int
  | .str s => .ok s.length
  | .list xs => .ok xs.length
  | .dict d => .ok d.length
  | _ => .error .typeError

/-- Python iteration (`for x in v` / `enumerate(v)`): lists yield elements,
strings yield one-character strings, dicts yield their keys; anything else
raises `TypeError` (in particular `None`, from a failed `.get`). -/
def pyIter : PyVal → Except PyErr (List PyVal)
  | .list xs => .ok xs
  | .str s => .ok (s.data.map fun c => .str (String.mk [c]))
  | .dict d => .ok (d.map fun kv => .str kv.1)
  | _ => .error .typeError

/-- Python `key in v` for a string `key`: dict key membership, list element
membership, substring test on strings; `TypeError` otherwise. -/
def pyContains (key : String) : PyVal → Except PyErr Bool
  | .dict d => .ok (hasKey d key)
  | .list xs => .ok (xs.any fun x => pyEq (.str key) x)
  | .str s => .ok (decide ((s.splitOn key).length > 1))
  | _ => .error .typeError

/-- Python list indexing `xs[i]`: a negative index counts from the end;
out of range raises `IndexError`. -/
def listIndex (xs : List PyVal) (i : Int) : Except PyErr PyVal :=
  let j : Int := if i < 0 then i + xs.length else i
  if j < 0 then .error .indexError
  else
    match xs.get? j.toNat with
    | some x => .ok x
    | Option.none => .error .indexError

/-- Python subscript `v[i]` with an integer index.  Dicts in this model have
string keys only, so an integer subscript on a dict raises `KeyError`. -/
def pyIndexInt (v : PyVal) (i : Int) : Except PyErr PyVal :=
  match v with
  | .list xs => listIndex xs i
  | .str s => listIndex (s.data.map fun c => .str (String.mk [c])) i
  | .dict _ => .error .keyError
  | _ => .error .typeError

/-- Python subscript `v[key]` with a string key: dict lookup (`KeyError` when
absent); subscripting a list or string with a string raises `TypeError`. -/
def pyIndexStr (v : PyVal) (key : String) : Except PyErr PyVal :=
  match v with
  | .dict d =>
    match dictFind? d key with
    | some x => .ok x
    | Option.none => .error .keyError
  | _ => .error .typeError

/-- Python `a + b` as the engine uses it: both operands numeric (booleans
coerce); every addition in the engine has a numeric literal or a numeric sum
on one side, so any non-numeric operand raises `TypeError`, as in Python. -/
def pyAdd (a b : PyVal) : Except PyErr PyVal :=
  match toNum? a, toNum? b with
  | some x, some y => .ok (.num (x + y))
  | _, _ => .error .typeError

/-- Python `a / b`: numeric division, `ZeroDivisionError` on a zero
denominator, `TypeError` on non-numeric operands (e.g. `None`). -/
def pyDiv (a b : PyVal) : Except PyErr PyVal :=
  match toNum? a, toNum? b with
  | some x, some y => if y = 0 then .error .zeroDivision else .ok (.num (x / y))
  | _, _ => .error .typeError

/-- Numeric sum of a list of values, `Option.none` on a non-numeric element. -/
def sumNums : List PyVal → Option ℚ
  | [] => some 0
  | x :: xs =>
    match toNum? x, sumNums xs with
    | some q, some s => some (q + s)
    | _, _ => Option.none

/-- Python `sum(v)` with default start `0`: numeric sum of a list; a
non-numeric element, or any non-list argument, raises `TypeError`
(strings and dict keys fail on `0 + str`). -/
def pySum (v : PyVal) : Except PyErr PyVal :=
  match v with
  | .list xs =>
    match sumNums xs with
    | some q => .ok (.num q)
    | Option.none => .error .typeError
  | _ => .error .typeError

/-- Python `v >= q` against a numeric literal `q` (the engine only compares
against numeric literals): `TypeError` when `v` is not numeric. -/
def pyGeNum (v : PyVal) (q : ℚ) : Except PyErr Bool :=
  match toNum? v with
  | some x => .ok (decide (q ≤ x))
  | _ => .error .typeError

/-- Python `v <= q` against a numeric literal `q`. -/
def pyLeNum (v : PyVal) (q : ℚ) : Except PyErr Bool :=
  match toNum? v with
  | some x => .ok (decide (x ≤ q))
  | _ => .error .typeError

-- FLAGS constants from `rules.py`.
namespace FLAGS

/-- FLAGS.GREEN = 1 -/
def GREEN : PyVal := .num 1

/-- FLAGS.AMBER = 2 -/
def AMBER : PyVal := .num 2

/-- FLAGS.RED = 0 -/
def RED : PyVal := .num 0

/-- FLAGS.MEDIUM_RISK = 3 (display purpose only) -/
def MEDIUM_RISK : PyVal := .num 3

/-- FLAGS.WHITE = 4 (data is missing for this field) -/
def WHITE : PyVal := .num 4

end FLAGS

/-- Loop of `latest_financial_index`: `for index, financial in enumerate(...)`,
returning the first index whose entry's `nature` equals `"STANDALONE"`, else
falling through to `return 0`.  `financial.get("nature")` raises
`AttributeError` on a non-dict element. -/
def lfiLoop : List PyVal → Int → Except PyErr Int
  | [], _ => .ok 0
  | f :: rest, idx => do
    let nature ← pyGetMethod f "nature"
    if pyEq nature (.str "STANDALONE") then .ok idx
    else lfiLoop rest (idx + 1)

/-- `latest_financial_index(data)` from `rules.py`: iterates
`enumerate(data.get("financials"))`.  When `"financials"` is absent, `.get`
yields `None` and `enumerate(None)` raises `TypeError`. -/
def latest_financial_index (data : Dict) : Except PyErr Int := do
  let xs ← pyIter (dictGetD data "financials")
  lfiLoop xs 0

/-- `total_revenue(data, financial_index)` from `rules.py`.  The chained
comparison `0 <= financial_index < len(data["financials"])` short-circuits:
`len` is only evaluated when `0 <= financial_index` holds, as in Python. -/
def total_revenue (data : Dict) (financial_index : Int) : Except PyErr PyVal := do
  if hasKey data "financials" then
    let fs := dictGetD data "financials"
    if 0 ≤ financial_index then
      let n ← pyLen fs
      if financial_index < n then
        let financial_entry ← pyIndexInt fs financial_index
        let hasPnl ← pyContains "pnl" financial_entry
        if hasPnl then
          let pnl ← pyIndexStr financial_entry "pnl"
          let hasLineItems ← pyContains "lineItems" pnl
          if hasLineItems then
            let line_items ← pyIndexStr pnl "lineItems"
            let hasNetRevenue ← pyContains "netRevenue" line_items
            if hasNetRevenue then
              pyIndexStr line_items "netRevenue"
            else pure PyVal.none
          else pure PyVal.none
        else pure PyVal.none
      else pure PyVal.none
    else pure PyVal.none
  else pure PyVal.none

/-- `total_borrowing(data, financial_index)` from `rules.py`.  The guard is
`'bs' in data and isinstance(data['bs'], list) and financial_index <
len(data['bs'])` — note the missing lower bound on the index.  A falsy
comparison `total_rev != 0` (which never raises) guards the division; a
`None` revenue passes that guard and the division raises `TypeError`. -/
def total_borrowing (data : Dict) (financial_index : Int) : Except PyErr PyVal := do
  match dictFind? data "bs" with
  | some (PyVal.list bs) =>
    if financial_index < (bs.length : Int) then
      let entry ← listIndex bs financial_index
      let ltb ← pyIndexStr entry "long_term_borrowings"
      let long_term_borrowings ← pySum ltb
      let stb ← pyIndexStr entry "short_term_borrowings"
      let short_term_borrowings ← pySum stb
      let total_rev ← total_revenue data financial_index
      if pyEq total_rev (.num 0) then
        pure PyVal.none
      else do
        let s ← pyAdd long_term_borrowings short_term_borrowings
        pyDiv s total_rev
    else pure (PyVal.num 0)
  | _ => pure (PyVal.num 0)

/-- `iscr(data, financial_index)` from `rules.py`.  Both sequences default to
`[]` via `.get(key, [])`; the chained comparison
`0 <= financial_index < min(len(...), len(...))` short-circuits before
evaluating the lengths when the index is negative. -/
def iscr (data : Dict) (financial_index : Int) : Except PyErr PyVal := do
  let plist := dictGetDefault data "profit_before_interest_tax_deprec" (.list [])
  let ilist := dictGetDefault data "interest_expenses" (.list [])
  if 0 ≤ financial_index then
    let np ← pyLen plist
    let ni ← pyLen ilist
    if financial_index < min np ni then
      let p ← pyIndexInt plist financial_index
      let ie ← pyIndexInt ilist financial_index
      let numerator ← pyAdd p (.num 1)
      let denominator ← pyAdd ie (.num 1)
      pyDiv numerator denominator
    else pure (PyVal.num 0)
  else pure (PyVal.num 0)

/-- `iscr_flag(data, financial_index)` from `rules.py`: GREEN when
`iscr(...) >= 2`, RED otherwise. -/
def iscr_flag (data : Dict) (financial_index : Int) : Except PyErr PyVal := do
  let iscr_value ← iscr data financial_index
  let b ← pyGeNum iscr_value 2
  if b then pure FLAGS.GREEN else pure FLAGS.RED

/-- `total_revenue_5cr_flag(data, financial_index)` from `rules.py`:
`total_rev is not None and total_rev >= 50000000` short-circuits, so `None`
is never compared; a non-numeric revenue raises `TypeError` in `>=`. -/
def total_revenue_5cr_flag (data : Dict) (financial_index : Int) : Except PyErr PyVal := do
  let total_rev ← total_revenue data financial_index
  match total_rev with
  | PyVal.none => pure FLAGS.RED
  | v => do
    let b ← pyGeNum v 50000000
    if b then pure FLAGS.GREEN else pure FLAGS.RED

/-- `borrowing_to_revenue_flag(data, financial_index)` from `rules.py`.  The
guard mirrors `total_borrowing`'s (again with no lower bound on the index);
the division `total_borrowings / total_revenue` is unguarded, so a zero
denominator raises `ZeroDivisionError` and a `None` numerator `TypeError`. -/
def borrowing_to_revenue_flag (data : Dict) (financial_index : Int) : Except PyErr PyVal := do
  match dictFind? data "total_revenue" with
  | some (PyVal.list trs) =>
    if financial_index < (trs.length : Int) then
      let total_borrowings ← total_borrowing data financial_index
      let total_revenue_v ← listIndex trs financial_index
      let ratio ← pyDiv total_borrowings total_revenue_v
      let b ← pyLeNum ratio (1 / 4)
      if b then pure FLAGS.GREEN else pure FLAGS.AMBER
    else pure FLAGS.AMBER
  | _ => pure FLAGS.AMBER

/-- `probe_model_5l_profit(data)` from `app.py`: computes the financial index
once, evaluates the three flags with it (in source order), and assembles the
result dict. -/
def probe_model_5l_profit (data : Dict) : Except PyErr PyVal := do
  let lastest_financial_index_value ← latest_financial_index data
  let total_revenue_5cr_flag_value ← total_revenue_5cr_flag data lastest_financial_index_value
  let borrowing_to_revenue_flag_value ← borrowing_to_revenue_flag data lastest_financial_index_value
  let iscr_flag_value ← iscr_flag data lastest_financial_index_value
  pure (.dict [("flags", .dict
    [("TOTAL_REVENUE_5CR_FLAG", total_revenue_5cr_flag_value),
     ("BORROWING_TO_REVENUE_FLAG", borrowing_to_revenue_flag_value),
     ("ISCR_FLAG", iscr_flag_value)])])

/-!
Shape predicates and spec-side chain definition used by the theorems.
-/

/-- One `financials` entry with the shape section 3 of the spec gives it: a
dict whose `pnl` value, when present, is a dict, whose `lineItems` value
under it, when present, is a dict, and whose `netRevenue` value, when
present, is numeric. -/
def entryChainOk : PyVal → Bool
  | .dict e =>
    match dictFind? e "pnl" with
    | some (.dict p) =>
      (match dictFind? p "lineItems" with
       | some (.dict l) =>
         (match dictFind? l "netRevenue" with
          | some v => (toNum? v).isSome
          | Option.none => true)
       | some _ => false
       | Option.none => true)
    | some _ => false
    | Option.none => true
  | _ => false

/-- The document's `financials` field, when present, is a list of well-shaped
entries (absent is fine). -/
def financialsOk (data : Dict) : Bool :=
  match dictFind? data "financials" with
  | some (.list es) => es.all entryChainOk
  | some _ => false
  | Option.none => true

/-- The key chain named by the spec, `financials -> index in bounds -> pnl ->
lineItems -> netRevenue`: resolves to the netRevenue value when every link
exists, and to the missing sentinel `None` when any link is absent (the index
out of bounds included). -/
def netRevenue_spec (data : Dict) (i : Int) : PyVal :=
  match dictFind? data "financials" with
  | some (.list es) =>
    if 0 ≤ i then
      match es[i.toNat]? with
      | some (.dict entry) =>
        (match dictFind? entry "pnl" with
         | some (.dict p) =>
           (match dictFind? p "lineItems" with
            | some (.dict l) =>
              (match dictFind? l "netRevenue" with
               | some v => v
               | Option.none => PyVal.none)
            | _ => PyVal.none)
         | _ => PyVal.none)
      | some _ => PyVal.none
      | Option.none => PyVal.none
    else PyVal.none
  | _ => PyVal.none

/-- The `bs` guard of `total_borrowing` fails: `bs` absent, not a list, or the
index at least its length (the guard has no lower bound, so a negative index
does not fail it). -/
def bsOutOfBounds (data : Dict) (i : Int) : Bool :=
  match dictFind? data "bs" with
  | some (.list bs) => decide ((bs.length : Int) ≤ i)
  | some _ => true
  | Option.none => true

/-- The `total_revenue` guard of `borrowing_to_revenue_flag` fails:
`total_revenue` absent, not a list, or the index at least its length. -/
def trvOutOfBounds (data : Dict) (i : Int) : Bool :=
  match dictFind? data "total_revenue" with
  | some (.list trs) => decide ((trs.length : Int) ≤ i)
  | some _ => true
  | Option.none => true

/-- Both `iscr` source fields are absent or lists of numbers, and no
`interest_expenses` entry equals `-1` (which would make `interest + 1` a zero
denominator). -/
def iscrFieldsOk (data : Dict) : Bool :=
  (match dictFind? data "profit_before_interest_tax_deprec" with
   | some (.list xs) => xs.all fun x => (toNum? x).isSome
   | some _ => false
   | Option.none => true) &&
  (match dictFind? data "interest_expenses" with
   | some (.list xs) =>
     xs.all fun x =>
       match toNum? x with
       | some q => decide (q ≠ -1)
       | Option.none => false
   | some _ => false
   | Option.none => true)

/-- A value that is a Python list. -/
def isList : PyVal → Bool
  | .list _ => true
  | _ => false

/-- Sample document: one STANDALONE period with a fully resolved revenue
chain (netRevenue = 60,000,000). -/
def sampleDoc : Dict :=
  [("financials", .list [.dict
    [("nature", .str "STANDALONE"),
     ("pnl", .dict [("lineItems", .dict [("netRevenue", .num 60000000)])])]])]

/-- Sample balance-sheet entry with borrowings summing to 25. -/
def sampleBsEntry : PyVal :=
  .dict [("long_term_borrowings", .list [.num 10]),
         ("short_term_borrowings", .list [.num 15])]

/-- Sample document with `pbitd = [9]` and `interest_expenses = [4]` (the
spec's ISCR scenario). -/
def sampleIscrDoc : Dict :=
  [("profit_before_interest_tax_deprec", .list [.num 9]),
   ("interest_expenses", .list [.num 4])]

/-!
Reduction helpers for the `Except` monad and `listIndex`.
-/

@[simp]
lemma exceptBind_ok {α β : Type} (a : α) (f : α → Except PyErr β) :
    (Except.ok a : Except PyErr α) >>= f = f a := rfl

@[simp]
lemma exceptBind_err {α β : Type} (e : PyErr) (f : α → Except PyErr β) :
    (Except.error e : Except PyErr α) >>= f = .error e := rfl

@[simp]
lemma exceptPure {α : Type} (a : α) :
    (pure a : Except PyErr α) = .ok a := rfl

lemma listIndex_nonneg_some (xs : List PyVal) (i : Int) (x : PyVal)
    (h0 : 0 ≤ i) (hx : xs[i.toNat]? = some x) :
    listIndex xs i = .ok x := by
  unfold listIndex
  rw [if_neg (by omega), if_neg (by omega)]
  simp only [List.get?_eq_getElem?, hx]

lemma listIndex_neg_some (xs : List PyVal) (i : Int) (x : PyVal)
    (hneg : i < 0) (hlow : 0 ≤ i + xs.length)
    (hx : xs[(i + xs.length).toNat]? = some x) :
    listIndex xs i = .ok x := by
  unfold listIndex
  rw [if_pos hneg, if_neg (by omega)]
  simp only [List.get?_eq_getElem?, hx]

/-- Central characterization: on a document whose `financials` (when present)
is a list of well-shaped entries, `total_revenue` returns exactly the value
of the spec's key chain and never raises. -/
lemma total_revenue_chain (data : Dict) (i : Int) (h : financialsOk data = true) :
    total_revenue data i = .ok (netRevenue_spec data i) := by
  unfold financialsOk at h
  unfold total_revenue netRevenue_spec hasKey dictGetD
  cases hf : dictFind? data "financials" with
  | none => simp [hf]
  | some v =>
    rw [hf] at h
    cases v with
    | list es =>
      have hall : es.all entryChainOk = true := h
      simp only [hf, Option.isSome_some, Option.getD_some, if_true]
      by_cases h0 : 0 ≤ i
      · simp only [if_pos h0, pyLen, exceptBind_ok]
        by_cases hlt : i < (es.length : Int)
        · simp only [if_pos hlt]
          have hnat : i.toNat < es.length := by omega
          have hentry : es[i.toNat]? = some es[i.toNat] :=
            List.getElem?_eq_getElem hnat
          have hok : entryChainOk es[i.toNat] = true := by
            rw [List.all_eq_true] at hall
            exact hall _ (List.getElem_mem hnat)
          simp only [pyIndexInt, listIndex_nonneg_some es i _ h0 hentry,
            exceptBind_ok, hentry]
          cases hE : es[i.toNat] with
          | dict e =>
            rw [hE] at hok
            simp only [entryChainOk] at hok
            simp only [pyContains, exceptBind_ok, hasKey]
            cases hp : dictFind? e "pnl" with
            | none => simp [hp]
            | some pv =>
              rw [hp] at hok
              cases pv with
              | dict p =>
                dsimp only at hok
                simp only [hp, Option.isSome_some, if_true, pyIndexStr,
                  exceptBind_ok, pyContains, hasKey]
                cases hl : dictFind? p "lineItems" with
                | none => simp [hl]
                | some lv =>
                  rw [hl] at hok
                  cases lv with
                  | dict l =>
                    dsimp only at hok
                    simp only [hl, Option.isSome_some, if_true, pyIndexStr,
                      exceptBind_ok, pyContains, hasKey]
                    cases hn : dictFind? l "netRevenue" with
                    | none => simp [hn]
                    | some nv => simp [hn]
                  | none => simp at hok
                  | bool b => simp at hok
                  | num q => simp at hok
                  | str s => simp at hok
                  | list xs => simp at hok
              | none => simp at hok
              | bool b => simp at hok
              | num q => simp at hok
              | str s => simp at hok
              | list xs => simp at hok
          | none => rw [hE] at hok; simp [entryChainOk] at hok
          | bool b => rw [hE] at hok; simp [entryChainOk] at hok
          | num q => rw [hE] at hok; simp [entryChainOk] at hok
          | str s => rw [hE] at hok; simp [entryChainOk] at hok
          | list xs => rw [hE] at hok; simp [entryChainOk] at hok
        · simp only [if_neg hlt]
          have hnone : es[i.toNat]? = Option.none := by
            rw [List.getElem?_eq_none_iff]
            omega
          simp [hnone, h0]
      · simp only [if_neg h0]
        simp
    | none => simp at h
    | bool b => simp at h
    | num q => simp at h
    | str s => simp at h
    | dict d => simp at h

/-- A negative index always makes `total_revenue` return the sentinel: the
chained comparison `0 <= financial_index < len(...)` fails on its first leg
before `len` is even evaluated, so no shape condition is needed. -/
lemma total_revenue_neg (data : Dict) (i : Int) (h : i < 0) :
    total_revenue data i = .ok PyVal.none := by
  unfold total_revenue
  by_cases hk : hasKey data "financials" = true
  · simp [hk, if_neg (by omega : ¬ (0 : Int) ≤ i)]
  · simp [Bool.not_eq_true] at hk
    simp [hk]

/-- On a well-shaped document the spec chain value is the sentinel or a
number (because a present `netRevenue` is numeric). -/
lemma netRevenue_spec_shape (data : Dict) (i : Int) (h : financialsOk data = true) :
    netRevenue_spec data i = PyVal.none ∨ (toNum? (netRevenue_spec data i)).isSome = true := by
  unfold financialsOk at h
  unfold netRevenue_spec
  cases hf : dictFind? data "financials" with
  | none => exact Or.inl (by simp)
  | some v =>
    rw [hf] at h
    cases v with
    | list es =>
      have hall : es.all entryChainOk = true := h
      by_cases h0 : 0 ≤ i
      · simp only [if_pos h0]
        cases hE : es[i.toNat]? with
        | none => exact Or.inl (by simp)
        | some entry =>
          have hok : entryChainOk entry = true := by
            rw [List.all_eq_true] at hall
            exact hall _ (List.getElem?_mem hE)
          cases entry with
          | dict e =>
            dsimp only
            simp only [entryChainOk] at hok
            cases hp : dictFind? e "pnl" with
            | none => exact Or.inl (by simp)
            | some pv =>
              rw [hp] at hok
              cases pv with
              | dict p =>
                dsimp only
                dsimp only at hok
                cases hl : dictFind? p "lineItems" with
                | none => exact Or.inl (by simp)
                | some lv =>
                  rw [hl] at hok
                  cases lv with
                  | dict l =>
                    dsimp only
                    dsimp only at hok
                    cases hn : dictFind? l "netRevenue" with
                    | none => exact Or.inl (by simp)
                    | some nv =>
                      rw [hn] at hok
                      exact Or.inr hok
                  | none => simp at hok
                  | bool b => simp at hok
                  | num q => simp at hok
                  | str s => simp at hok
                  | list xs => simp at hok
              | none => simp at hok
              | bool b => simp at hok
              | num q => simp at hok
              | str s => simp at hok
              | list xs => simp at hok
          | none => simp [entryChainOk] at hok
          | bool b => simp [entryChainOk] at hok
          | num q => simp [entryChainOk] at hok
          | str s => simp [entryChainOk] at hok
          | list xs => simp [entryChainOk] at hok
      · simp only [if_neg h0]
        exact Or.inl (by simp)
    | none => simp at h
    | bool b => simp at h
    | num q => simp at h
    | str s => simp at h
    | dict d => simp at h

/-- In-bounds `iscr` reduces to the division of the offset values (which may
still raise if the denominator `q + 1` is zero, i.e. `q = -1`). -/
lemma iscr_inbounds (data : Dict) (i : Int) (ps qs : List PyVal)
    (vp vq : PyVal) (p q : ℚ)
    (hp : dictGetDefault data "profit_before_interest_tax_deprec" (.list []) = .list ps)
    (hq : dictGetDefault data "interest_expenses" (.list []) = .list qs)
    (h0 : 0 ≤ i) (hlt : i < min (ps.length : Int) (qs.length : Int))
    (hvp : ps[i.toNat]? = some vp) (hnp : toNum? vp = some p)
    (hvq : qs[i.toNat]? = some vq) (hnq : toNum? vq = some q) :
    iscr data i = pyDiv (.num (p + 1)) (.num (q + 1)) := by
  unfold iscr
  rw [hp, hq]
  simp only [if_pos h0, pyLen, exceptBind_ok]
  rw [if_pos hlt]
  simp only [pyIndexInt, listIndex_nonneg_some ps i vp h0 hvp,
    listIndex_nonneg_some qs i vq h0 hvq, exceptBind_ok, pyAdd, hnp, hnq]
  simp only [toNum?, exceptBind_ok]

/-- Out-of-bounds `iscr` (negative index included) returns `0.0` whenever the
two source fields are lists (or absent, defaulting to `[]`). -/
lemma iscr_out_of_bounds (data : Dict) (i : Int) (ps qs : List PyVal)
    (hp : dictGetDefault data "profit_before_interest_tax_deprec" (.list []) = .list ps)
    (hq : dictGetDefault data "interest_expenses" (.list []) = .list qs)
    (h : ¬(0 ≤ i ∧ i < min (ps.length : Int) (qs.length : Int))) :
    iscr data i = .ok (.num 0) := by
  unfold iscr
  rw [hp, hq]
  by_cases h0 : 0 ≤ i
  · rcases not_and_or.mp h with h' | h'
    · exact absurd h0 h'
    · simp only [if_pos h0, pyLen, exceptBind_ok]
      rw [if_neg h']
      rfl
  · rw [if_neg h0]
    rfl

/-- In-bounds `total_borrowing` (guard passed, both borrowing sums numeric)
reduces to the zero test on the nested revenue and the division. -/
lemma total_borrowing_inbounds (data : Dict) (i : Int) (bs : List PyVal)
    (entry lv sv tr : PyVal) (a b : ℚ)
    (hbs : dictFind? data "bs" = some (.list bs))
    (hlt : i < (bs.length : Int))
    (hentry : listIndex bs i = .ok entry)
    (hlv : pyIndexStr entry "long_term_borrowings" = .ok lv)
    (ha : pySum lv = .ok (.num a))
    (hsv : pyIndexStr entry "short_term_borrowings" = .ok sv)
    (hb : pySum sv = .ok (.num b))
    (htr : total_revenue data i = .ok tr) :
    total_borrowing data i =
      if pyEq tr (.num 0) = true then .ok PyVal.none
      else pyDiv (.num (a + b)) tr := by
  unfold total_borrowing
  rw [hbs]
  dsimp only
  rw [if_pos hlt]
  simp only [hentry, exceptBind_ok, hlv, ha, hsv, hb, htr]
  by_cases hz : pyEq tr (.num 0) = true
  · simp [hz]
  · simp [hz, pyAdd, toNum?]

/-- `total_borrowing` returns the `0.0` default exactly when its guard fails
(`bs` absent, not a list, or index at least the length). -/
lemma total_borrowing_default (data : Dict) (i : Int)
    (h : bsOutOfBounds data i = true) :
    total_borrowing data i = .ok (.num 0) := by
  unfold bsOutOfBounds at h
  unfold total_borrowing
  cases hbs : dictFind? data "bs" with
  | none => rfl
  | some v =>
    rw [hbs] at h
    cases v with
    | list bs =>
      dsimp only at h ⊢
      rw [if_neg (by
        have := of_decide_eq_true h
        omega)]
      rfl
    | none => rfl
    | bool b => rfl
    | num q => rfl
    | str s => rfl
    | dict d => rfl

/-- `borrowing_to_revenue_flag` with its guard passed reduces to the unguarded
division followed by the 0.25 threshold test. -/
lemma brf_guard (data : Dict) (i : Int) (trs : List PyVal) (tb trv : PyVal)
    (htr : dictFind? data "total_revenue" = some (.list trs))
    (hlt : i < (trs.length : Int))
    (htb : total_borrowing data i = .ok tb)
    (hidx : listIndex trs i = .ok trv) :
    borrowing_to_revenue_flag data i =
      (pyDiv tb trv >>= fun ratio =>
        pyLeNum ratio (1 / 4) >>= fun b =>
          if b then pure FLAGS.GREEN else pure FLAGS.AMBER) := by
  unfold borrowing_to_revenue_flag
  rw [htr]
  dsimp only
  rw [if_pos hlt]
  simp only [htb, exceptBind_ok, hidx]

/-- `borrowing_to_revenue_flag` returns the AMBER default exactly when its
guard fails. -/
lemma brf_default (data : Dict) (i : Int)
    (h : trvOutOfBounds data i = true) :
    borrowing_to_revenue_flag data i = .ok FLAGS.AMBER := by
  unfold trvOutOfBounds at h
  unfold borrowing_to_revenue_flag
  cases htr : dictFind? data "total_revenue" with
  | none => rfl
  | some v =>
    rw [htr] at h
    cases v with
    | list trs =>
      dsimp only at h ⊢
      rw [if_neg (by
        have := of_decide_eq_true h
        omega)]
      rfl
    | none => rfl
    | bool b => rfl
    | num q => rfl
    | str s => rfl
    | dict d => rfl

/-- A GREEN/RED threshold tail can only produce GREEN or RED when it returns. -/
lemma geFlagTail (v f : PyVal) (t : ℚ)
    (h : (pyGeNum v t >>= fun b =>
      if b then pure FLAGS.GREEN else pure FLAGS.RED : Except PyErr PyVal) = .ok f) :
    f = FLAGS.GREEN ∨ f = FLAGS.RED := by
  cases hg : pyGeNum v t with
  | error e => rw [hg] at h; simp at h
  | ok c =>
    rw [hg] at h
    simp only [exceptBind_ok] at h
    cases c
    · simp only [Bool.false_eq_true, if_false, exceptPure, Except.ok.injEq] at h
      exact Or.inr h.symm
    · simp only [if_true, exceptPure, Except.ok.injEq] at h
      exact Or.inl h.symm

/-- A GREEN/AMBER threshold tail can only produce GREEN or AMBER when it
returns. -/
lemma leFlagTail (x : Except PyErr Bool) (f : PyVal)
    (h : (x >>= fun b =>
      if b then pure FLAGS.GREEN else pure FLAGS.AMBER : Except PyErr PyVal) = .ok f) :
    f = FLAGS.GREEN ∨ f = FLAGS.AMBER := by
  cases x with
  | error e => simp at h
  | ok c =>
    simp only [exceptBind_ok] at h
    cases c
    · simp only [Bool.false_eq_true, if_false, exceptPure, Except.ok.injEq] at h
      exact Or.inr h.symm
    · simp only [if_true, exceptPure, Except.ok.injEq] at h
      exact Or.inl h.symm

/-- A GREEN/RED threshold tail on a numeric value returns GREEN exactly at the
threshold and above, RED below. -/
lemma geFlagTotal (v : PyVal) (t q : ℚ) (hn : toNum? v = some q) :
    (pyGeNum v t >>= fun b =>
      if b then pure FLAGS.GREEN else pure FLAGS.RED : Except PyErr PyVal) =
      .ok (if t ≤ q then FLAGS.GREEN else FLAGS.RED) := by
  simp only [pyGeNum, hn, exceptBind_ok]
  by_cases hq : t ≤ q
  · simp [hq]
  · simp [hq]

/-- `total_revenue_5cr_flag` produces only GREEN or RED when it returns. -/
lemma flag5cr_cases (data : Dict) (i : Int) (f : PyVal)
    (h : total_revenue_5cr_flag data i = .ok f) :
    f = FLAGS.GREEN ∨ f = FLAGS.RED := by
  unfold total_revenue_5cr_flag at h
  cases htr : total_revenue data i with
  | error e => rw [htr] at h; simp at h
  | ok v =>
    rw [htr] at h
    simp only [exceptBind_ok] at h
    cases v with
    | none =>
      simp only [exceptPure, Except.ok.injEq] at h
      exact Or.inr h.symm
    | bool b => exact geFlagTail _ f _ h
    | num q => exact geFlagTail _ f _ h
    | str s => exact geFlagTail _ f _ h
    | list xs => exact geFlagTail _ f _ h
    | dict d => exact geFlagTail _ f _ h

/-- `iscr_flag` produces only GREEN or RED when it returns. -/
lemma iscrflag_cases (data : Dict) (i : Int) (f : PyVal)
    (h : iscr_flag data i = .ok f) :
    f = FLAGS.GREEN ∨ f = FLAGS.RED := by
  unfold iscr_flag at h
  cases hv : iscr data i with
  | error e => rw [hv] at h; simp at h
  | ok v =>
    rw [hv] at h
    simp only [exceptBind_ok] at h
    exact geFlagTail _ f _ h

/-- `borrowing_to_revenue_flag` produces only GREEN or AMBER when it
returns. -/
lemma brf_cases (data : Dict) (i : Int) (f : PyVal)
    (h : borrowing_to_revenue_flag data i = .ok f) :
    f = FLAGS.GREEN ∨ f = FLAGS.AMBER := by
  unfold borrowing_to_revenue_flag at h
  cases htr : dictFind? data "total_revenue" with
  | none =>
    rw [htr] at h
    simp only [exceptPure, Except.ok.injEq] at h
    exact Or.inr h.symm
  | some v =>
    rw [htr] at h
    cases v with
    | list trs =>
      dsimp only at h
      by_cases hlt : i < (trs.length : Int)
      · rw [if_pos hlt] at h
        cases htb : total_borrowing data i with
        | error e => rw [htb] at h; simp at h
        | ok tb =>
          rw [htb] at h
          simp only [exceptBind_ok] at h
          cases hidx : listIndex trs i with
          | error e => rw [hidx] at h; simp at h
          | ok trv =>
            rw [hidx] at h
            simp only [exceptBind_ok] at h
            cases hdiv : pyDiv tb trv with
            | error e => rw [hdiv] at h; simp at h
            | ok ratio =>
              rw [hdiv] at h
              simp only [exceptBind_ok] at h
              exact leFlagTail _ f h
      · rw [if_neg hlt] at h
        simp only [exceptPure, Except.ok.injEq] at h
        exact Or.inr h.symm
    | none =>
      simp only [exceptPure, Except.ok.injEq] at h
      exact Or.inr h.symm
    | bool b =>
      simp only [exceptPure, Except.ok.injEq] at h
      exact Or.inr h.symm
    | num q =>
      simp only [exceptPure, Except.ok.injEq] at h
      exact Or.inr h.symm
    | str s =>
      simp only [exceptPure, Except.ok.injEq] at h
      exact Or.inr h.symm
    | dict d =>
      simp only [exceptPure, Except.ok.injEq] at h
      exact Or.inr h.symm

/-- When both source fields are absent or lists of numbers with no interest
entry equal to `-1`, `iscr` returns some rational and never raises. -/
lemma iscr_fields_result (data : Dict) (i : Int) (h : iscrFieldsOk data = true) :
    ∃ r : ℚ, iscr data i = .ok (.num r) := by
  unfold iscrFieldsOk at h
  rw [Bool.and_eq_true] at h
  obtain ⟨hP, hI⟩ := h
  obtain ⟨ps, hp, hpall⟩ : ∃ ps,
      dictGetDefault data "profit_before_interest_tax_deprec" (.list []) = .list ps ∧
      (ps.all fun x => (toNum? x).isSome) = true := by
    cases hf : dictFind? data "profit_before_interest_tax_deprec" with
    | none => exact ⟨[], by simp [dictGetDefault, hf], rfl⟩
    | some v =>
      rw [hf] at hP
      cases v with
      | list xs => exact ⟨xs, by simp [dictGetDefault, hf], hP⟩
      | none => simp at hP
      | bool b => simp at hP
      | num q => simp at hP
      | str s => simp at hP
      | dict d => simp at hP
  obtain ⟨qs, hq, hqall⟩ : ∃ qs,
      dictGetDefault data "interest_expenses" (.list []) = .list qs ∧
      (qs.all fun x =>
        match toNum? x with
        | some q => decide (q ≠ -1)
        | Option.none => false) = true := by
    cases hf : dictFind? data "interest_expenses" with
    | none => exact ⟨[], by simp [dictGetDefault, hf], rfl⟩
    | some v =>
      rw [hf] at hI
      cases v with
      | list xs => exact ⟨xs, by simp [dictGetDefault, hf], hI⟩
      | none => simp at hI
      | bool b => simp at hI
      | num q => simp at hI
      | str s => simp at hI
      | dict d => simp at hI
  by_cases hin : 0 ≤ i ∧ i < min (ps.length : Int) (qs.length : Int)
  · obtain ⟨h0, hlt⟩ := hin
    obtain ⟨hlp, hlq⟩ := lt_min_iff.mp hlt
    have hnp : i.toNat < ps.length := by omega
    have hnq : i.toNat < qs.length := by omega
    have hvp : ps[i.toNat]? = some ps[i.toNat] := List.getElem?_eq_getElem hnp
    have hvq : qs[i.toNat]? = some qs[i.toNat] := List.getElem?_eq_getElem hnq
    rw [List.all_eq_true] at hpall hqall
    have hpx := hpall _ (List.getElem_mem hnp)
    have hqx := hqall _ (List.getElem_mem hnq)
    obtain ⟨p, hpn⟩ := Option.isSome_iff_exists.mp hpx
    cases hqn : toNum? qs[i.toNat] with
    | none => rw [hqn] at hqx; simp at hqx
    | some q =>
      rw [hqn] at hqx
      have hq1 : q ≠ -1 := by
        simpa using of_decide_eq_true hqx
      refine ⟨(p + 1) / (q + 1), ?_⟩
      rw [iscr_inbounds data i ps qs _ _ p q hp hq h0 (lt_min_iff.mpr ⟨hlp, hlq⟩)
        hvp hpn hvq hqn]
      simp only [pyDiv, toNum?]
      rw [if_neg (by intro hc; apply hq1; linarith)]
  · exact ⟨0, iscr_out_of_bounds data i ps qs hp hq hin⟩

/-- `iscr_flag` returns GREEN or RED without raising on well-shaped ISCR
fields. -/
lemma iscr_flag_ok (data : Dict) (i : Int) (h : iscrFieldsOk data = true) :
    iscr_flag data i = .ok FLAGS.GREEN ∨ iscr_flag data i = .ok FLAGS.RED := by
  obtain ⟨r, hr⟩ := iscr_fields_result data i h
  unfold iscr_flag
  rw [hr]
  simp only [exceptBind_ok]
  rw [geFlagTotal (.num r) 2 r rfl]
  by_cases h2 : (2 : ℚ) ≤ r
  · left; rw [if_pos h2]
  · right; rw [if_neg h2]

/-- `total_revenue_5cr_flag` returns a flag without raising on a document with
well-shaped financials. -/
lemma flag5cr_ok (data : Dict) (i : Int) (h : financialsOk data = true) :
    ∃ f, total_revenue_5cr_flag data i = .ok f := by
  have hchain := total_revenue_chain data i h
  have hshape := netRevenue_spec_shape data i h
  unfold total_revenue_5cr_flag
  rw [hchain]
  simp only [exceptBind_ok]
  rcases hshape with hnone | hnum
  · rw [hnone]
    exact ⟨FLAGS.RED, rfl⟩
  · cases hv : netRevenue_spec data i with
    | none => exact ⟨FLAGS.RED, rfl⟩
    | bool b =>
      rw [hv] at hnum
      obtain ⟨q, hq⟩ := Option.isSome_iff_exists.mp hnum
      exact ⟨_, geFlagTotal (.bool b) 50000000 q hq⟩
    | num r =>
      rw [hv] at hnum
      obtain ⟨q, hq⟩ := Option.isSome_iff_exists.mp hnum
      exact ⟨_, geFlagTotal (.num r) 50000000 q hq⟩
    | str s => rw [hv] at hnum; simp [toNum?] at hnum
    | list xs => rw [hv] at hnum; simp [toNum?] at hnum
    | dict d => rw [hv] at hnum; simp [toNum?] at hnum

/-!
Claim theorems.
-/

/-- Claim C2 (code bug): the claim and the function's own docstring say that
when no STANDALONE entry is found — `financials` absent included — the
function returns 0; on an absent `financials` the code instead raises
`TypeError` (`enumerate(None)`).  This theorem evaluates the code at the
failing input `{}` and checks the intended scan behavior on present lists:
first STANDALONE index, else 0. -/
theorem claim_C2 :
    latest_financial_index [] = .error .typeError ∧
    latest_financial_index [("financials", .list
      [.dict [("nature", .str "CONSOLIDATED")],
       .dict [("nature", .str "STANDALONE")]])] = .ok 1 ∧
    latest_financial_index [("financials", .list
      [.dict [("nature", .str "CONSOLIDATED")]])] = .ok 0 :=
  ⟨rfl, rfl, rfl⟩

/-- Claim C5 counterexample: with `financials` present but not a sequence
(here the number 5), `total_revenue` raises `TypeError` at `len(...)` instead
of returning the missing sentinel, refuting the claim's "no exception is
raised for missing/malformed structure". -/
theorem claim_C5_counterexample :
    total_revenue [("financials", PyVal.num 5)] 0 = .error .typeError := rfl

/-- Claim C5 (amended): on every document whose `financials`, when present, is
a list of dict entries with dict-shaped `pnl` and `lineItems` and numeric
`netRevenue`, `total_revenue` returns exactly the value of the key chain —
the `netRevenue` number when every link resolves, the sentinel `None` when
any link is absent or the index is out of bounds — and never raises. -/
theorem claim_C5 (data : Dict) (i : Int) (h : financialsOk data = true) :
    total_revenue data i = .ok (netRevenue_spec data i) :=
  total_revenue_chain data i h

/-- Claim C5 witness: on the sample document the chain resolves to the exact
netRevenue 60,000,000 at index 0. -/
theorem claim_C5_witness :
    financialsOk sampleDoc = true ∧
    total_revenue sampleDoc 0 = .ok (netRevenue_spec sampleDoc 0) ∧
    netRevenue_spec sampleDoc 0 = .num 60000000 :=
  ⟨rfl, claim_C5 sampleDoc 0 rfl, rfl⟩

/-- Claim C7: whenever `total_revenue` resolves to the sentinel or to a
number (the shapes the spec's data model gives it), `total_revenue_5cr_flag`
returns GREEN exactly when that revenue is at least 50,000,000 and RED
otherwise, the sentinel included. -/
theorem claim_C7 (data : Dict) (i : Int) (v : PyVal)
    (hv : total_revenue data i = .ok v)
    (hshape : v = PyVal.none ∨ (toNum? v).isSome = true) :
    (total_revenue_5cr_flag data i = .ok FLAGS.GREEN ↔
      ∃ q : ℚ, toNum? v = some q ∧ 50000000 ≤ q) ∧
    (total_revenue_5cr_flag data i = .ok FLAGS.GREEN ∨
     total_revenue_5cr_flag data i = .ok FLAGS.RED) := by
  unfold total_revenue_5cr_flag
  rw [hv]
  simp only [exceptBind_ok]
  rcases hshape with rfl | hnum
  · simp [toNum?, FLAGS.RED, FLAGS.GREEN]
  · cases v with
    | none => simp [toNum?] at hnum
    | bool b =>
      obtain ⟨q, hq⟩ := Option.isSome_iff_exists.mp hnum
      dsimp only
      rw [geFlagTotal (.bool b) 50000000 q hq, hq]
      by_cases hq5 : (50000000 : ℚ) ≤ q
      · simp [hq5, FLAGS.GREEN]
      · simp [hq5, FLAGS.GREEN, FLAGS.RED]
    | num r =>
      obtain ⟨q, hq⟩ := Option.isSome_iff_exists.mp hnum
      dsimp only
      rw [geFlagTotal (.num r) 50000000 q hq, hq]
      by_cases hq5 : (50000000 : ℚ) ≤ q
      · simp [hq5, FLAGS.GREEN]
      · simp [hq5, FLAGS.GREEN, FLAGS.RED]
    | str s => simp [toNum?] at hnum
    | list xs => simp [toNum?] at hnum
    | dict d => simp [toNum?] at hnum

/-- Claim C7 witness: the sample document's revenue 60,000,000 is above the
threshold and yields GREEN. -/
theorem claim_C7_witness :
    total_revenue sampleDoc 0 = .ok (.num 60000000) ∧
    total_revenue_5cr_flag sampleDoc 0 = .ok FLAGS.GREEN := by
  refine ⟨rfl, ?_⟩
  have h := claim_C7 sampleDoc 0 (.num 60000000) rfl (Or.inr rfl)
  exact h.1.mpr ⟨60000000, rfl, by norm_num⟩

/-- Claim C6 counterexample: with `interest_expenses[0] = -1` the in-bounds
formula's denominator `interest + 1` is zero and `iscr` raises
`ZeroDivisionError` instead of returning the claimed ratio. -/
theorem claim_C6_counterexample :
    iscr [("profit_before_interest_tax_deprec", .list [.num 0]),
          ("interest_expenses", .list [.num (-1)])] 0 = .error .zeroDivision := by
  rw [iscr_inbounds
    [("profit_before_interest_tax_deprec", .list [.num 0]),
     ("interest_expenses", .list [.num (-1)])]
    0 [.num 0] [.num (-1)] (.num 0) (.num (-1)) 0 (-1)
    rfl rfl (by norm_num) (by norm_num) rfl rfl rfl rfl]
  simp only [pyDiv, toNum?]
  norm_num

/-- Claim C6 (amended): for every index in bounds of both sequences whose two
entries are numbers and whose interest entry is not `-1`, `iscr` returns
exactly `(pbitd[i] + 1) / (interest[i] + 1)`; for any index outside the
shorter of the two list-shaped sequences (negative indices included) it
returns `0.0`; an interest entry of `-1` instead raises. -/
theorem claim_C6 (data : Dict) (i : Int) (ps qs : List PyVal)
    (hp : dictGetDefault data "profit_before_interest_tax_deprec" (.list []) = .list ps)
    (hq : dictGetDefault data "interest_expenses" (.list []) = .list qs) :
    (∀ (vp vq : PyVal) (p q : ℚ), 0 ≤ i →
      i < min (ps.length : Int) (qs.length : Int) →
      ps[i.toNat]? = some vp → toNum? vp = some p →
      qs[i.toNat]? = some vq → toNum? vq = some q → q ≠ -1 →
      iscr data i = .ok (.num ((p + 1) / (q + 1)))) ∧
    (¬(0 ≤ i ∧ i < min (ps.length : Int) (qs.length : Int)) →
      iscr data i = .ok (.num 0)) := by
  constructor
  · intro vp vq p q h0 hlt hvp hnp hvq hnq hq1
    rw [iscr_inbounds data i ps qs vp vq p q hp hq h0 hlt hvp hnp hvq hnq]
    simp only [pyDiv, toNum?]
    rw [if_neg (by intro hc; exact hq1 (by linarith))]
  · exact iscr_out_of_bounds data i ps qs hp hq

/-- Claim C6 witness: the spec's scenario `pbitd = [9]`, `interest = [4]`
yields exactly 2 at index 0, and 0.0 out of bounds at index 5. -/
theorem claim_C6_witness :
    iscr sampleIscrDoc 0 = .ok (.num 2) ∧ iscr sampleIscrDoc 5 = .ok (.num 0) := by
  constructor
  · have h := (claim_C6 sampleIscrDoc 0 [.num 9] [.num 4] rfl rfl).1
      (.num 9) (.num 4) 9 4 (by norm_num) (by norm_num) rfl rfl rfl rfl (by norm_num)
    rw [h]
    norm_num
  · exact (claim_C6 sampleIscrDoc 5 [.num 9] [.num 4] rfl rfl).2 (by
      intro hc
      simp at hc)

/-- Claim C4 counterexample: with `bs` present and in bounds but the revenue
chain unresolvable (no `financials`), `total_revenue` yields the sentinel
`None`, which passes the `!= 0` guard, and the division by `None` raises
`TypeError` — the function neither returns the ratio nor the sentinel nor
`0.0`. -/
theorem claim_C4_counterexample :
    total_borrowing [("bs", .list [sampleBsEntry])] 0 = .error .typeError := rfl

/-- Claim C4 (amended): when `bs` is present, a list, and the index passes
the (lower-bound-free) check, with the entry's borrowing lists summing to
numbers: if the nested revenue resolves to a nonzero number the result is
`(long + short) / revenue`; if it resolves to zero the result is the sentinel
`None`; when the revenue is itself missing the division raises instead.  When
`bs` is absent, not a list, or the index is at least its length, the result
is the distinct default `0.0`. -/
theorem claim_C4 (data : Dict) (i : Int) :
    (∀ (bs : List PyVal) (entry lv sv : PyVal) (a b r : ℚ),
      dictFind? data "bs" = some (.list bs) → i < (bs.length : Int) →
      listIndex bs i = .ok entry →
      pyIndexStr entry "long_term_borrowings" = .ok lv →
      pySum lv = .ok (.num a) →
      pyIndexStr entry "short_term_borrowings" = .ok sv →
      pySum sv = .ok (.num b) →
      total_revenue data i = .ok (.num r) →
      total_borrowing data i =
        (if r = 0 then .ok PyVal.none else .ok (.num ((a + b) / r)))) ∧
    (bsOutOfBounds data i = true → total_borrowing data i = .ok (.num 0)) := by
  constructor
  · intro bs entry lv sv a b r hbs hlt hentry hlv ha hsv hb htr
    rw [total_borrowing_inbounds data i bs entry lv sv (.num r) a b
      hbs hlt hentry hlv ha hsv hb htr]
    by_cases hr : r = 0
    · subst hr
      simp [pyEq]
    · simp only [pyEq, beq_iff_eq, hr]
      simp only [if_false, decide_eq_true_eq]
      simp only [pyDiv, toNum?]
      rw [if_neg hr]
  · exact total_borrowing_default data i

/-- Claim C4 witness: on the sample document with a balance sheet the ratio
is `25 / 60000000`; with `bs` absent the default `0.0` comes back. -/
theorem claim_C4_witness :
    total_borrowing (("bs", .list [sampleBsEntry]) :: sampleDoc) 0 =
      .ok (.num (1 / 2400000)) ∧
    total_borrowing [] 0 = .ok (.num 0) := by
  constructor
  · have h := (claim_C4 (("bs", .list [sampleBsEntry]) :: sampleDoc) 0).1
      [sampleBsEntry] sampleBsEntry (.list [.num 10]) (.list [.num 15])
      10 15 60000000
      rfl (by norm_num) rfl rfl
      (by simp [pySum, sumNums, toNum?]) rfl
      (by simp [pySum, sumNums, toNum?]) rfl
    rw [h]
    norm_num
  · exact (claim_C4 [] 0).2 rfl

/-- Claim C3 counterexample: the spec's own boundary scenario
(`total_revenue = [100]`, one `bs` entry with borrowings 10 and 15, index 0)
does not return GREEN on the code: `total_borrowing` divides by the missing
nested revenue and the flag call raises `TypeError` instead of returning a
flag. -/
theorem claim_C3_counterexample :
    borrowing_to_revenue_flag
      [("total_revenue", .list [.num 100]), ("bs", .list [sampleBsEntry])] 0 =
      .error .typeError := rfl

/-- Claim C3 (amended): `borrowing_to_revenue_flag` returns AMBER when
`total_revenue` is absent, not a list, or the index is at least its length;
when the guard passes and both `total_borrowing` and `total_revenue[index]`
resolve to numbers with a nonzero denominator, it returns GREEN exactly when
the ratio is at most 0.25 (boundary inclusive) and AMBER otherwise; a zero
denominator or a non-numeric borrowing value instead raises. -/
theorem claim_C3 (data : Dict) (i : Int) :
    (trvOutOfBounds data i = true →
      borrowing_to_revenue_flag data i = .ok FLAGS.AMBER) ∧
    (∀ (trs : List PyVal) (tb trv : PyVal) (x y : ℚ),
      dictFind? data "total_revenue" = some (.list trs) →
      i < (trs.length : Int) →
      total_borrowing data i = .ok tb → toNum? tb = some x →
      listIndex trs i = .ok trv → toNum? trv = some y → y ≠ 0 →
      borrowing_to_revenue_flag data i =
        .ok (if x / y ≤ 1 / 4 then FLAGS.GREEN else FLAGS.AMBER)) := by
  constructor
  · exact brf_default data i
  · intro trs tb trv x y htr hlt htb hx hidx hy hy0
    rw [brf_guard data i trs tb trv htr hlt htb hidx]
    simp only [pyDiv, hx, hy]
    rw [if_neg hy0]
    simp only [exceptBind_ok, pyLeNum, toNum?]
    simp only [decide_eq_true_eq]
    exact (apply_ite Except.ok _ _ _).symm

/-- Claim C3 witness: an absent `total_revenue` yields AMBER; with
`total_revenue = [100]` and no `bs` the ratio is `0 / 100 = 0 ≤ 0.25` and the
flag is GREEN. -/
theorem claim_C3_witness :
    borrowing_to_revenue_flag [] 0 = .ok FLAGS.AMBER ∧
    borrowing_to_revenue_flag [("total_revenue", .list [.num 100])] 0 =
      .ok FLAGS.GREEN := by
  constructor
  · exact (claim_C3 [] 0).1 rfl
  · have h := (claim_C3 [("total_revenue", .list [.num 100])] 0).2
      [.num 100] (.num 0) (.num 100) 0 100
      rfl (by norm_num) rfl rfl rfl rfl (by norm_num)
    rw [h]
    norm_num

/-- Claim C10 (amended): `total_revenue` and `iscr` reject every negative
index through their `0 <=` check (sentinel and `0.0` respectively);
`total_borrowing`'s guard has no lower bound, so a negative in-range index
passes it and the entry at `len(bs) + index` is selected and summed — but the
nested `total_revenue` call rejects the negative index and returns the
sentinel, so the division raises `TypeError` rather than returning either a
ratio or the out-of-bounds default `0.0`; `borrowing_to_revenue_flag`'s
`total_revenue[index]` lookup likewise accepts a negative in-range index,
selecting from the end of the list. -/
theorem claim_C10 (data : Dict) (i : Int) :
    (i < 0 → total_revenue data i = .ok PyVal.none) ∧
    (∀ ps qs : List PyVal,
      dictGetDefault data "profit_before_interest_tax_deprec" (.list []) = .list ps →
      dictGetDefault data "interest_expenses" (.list []) = .list qs →
      i < 0 → iscr data i = .ok (.num 0)) ∧
    (∀ (bs : List PyVal) (entry lv sv : PyVal) (a b : ℚ),
      dictFind? data "bs" = some (.list bs) → i < 0 → 0 ≤ i + bs.length →
      bs[(i + bs.length).toNat]? = some entry →
      pyIndexStr entry "long_term_borrowings" = .ok lv →
      pySum lv = .ok (.num a) →
      pyIndexStr entry "short_term_borrowings" = .ok sv →
      pySum sv = .ok (.num b) →
      total_borrowing data i = .error .typeError) ∧
    (∀ (trs : List PyVal) (y : ℚ),
      dictFind? data "bs" = Option.none →
      dictFind? data "total_revenue" = some (.list trs) →
      i < 0 → 0 ≤ i + trs.length →
      trs[(i + trs.length).toNat]? = some (.num y) → y ≠ 0 →
      borrowing_to_revenue_flag data i = .ok FLAGS.GREEN) := by
  refine ⟨total_revenue_neg data i, ?_, ?_, ?_⟩
  · intro ps qs hp hq hneg
    exact iscr_out_of_bounds data i ps qs hp hq (by omega)
  · intro bs entry lv sv a b hbs hneg hlow hx hlv ha hsv hb
    have hentry := listIndex_neg_some bs i entry hneg hlow hx
    have htr := total_revenue_neg data i hneg
    rw [total_borrowing_inbounds data i bs entry lv sv PyVal.none a b
      hbs (by omega) hentry hlv ha hsv hb htr]
    simp [pyEq, pyDiv, toNum?]
  · intro trs y hnobs htrv hneg hlow hx hy0
    have htb : total_borrowing data i = .ok (.num 0) := by
      apply total_borrowing_default
      unfold bsOutOfBounds
      rw [hnobs]
    have hidx := listIndex_neg_some trs i (.num y) hneg hlow hx
    rw [brf_guard data i trs (.num 0) (.num y) htrv (by omega) htb hidx]
    simp only [pyDiv, toNum?]
    rw [if_neg hy0]
    simp only [exceptBind_ok, pyLeNum, toNum?, zero_div]
    have h14 : ((0 : ℚ) ≤ 1 / 4) := by norm_num
    simp [h14]

/-- Claim C10 witness: at index `-1` the engine behaves as amended —
`total_revenue` gives the sentinel, `iscr` gives `0.0`, `total_borrowing`
raises on its `bs` entry selected from the end, and the flag's
`total_revenue[-1]` lookup selects the last element and yields GREEN. -/
theorem claim_C10_witness :
    total_revenue [] (-1) = .ok PyVal.none ∧
    iscr [] (-1) = .ok (.num 0) ∧
    total_borrowing [("bs", .list [sampleBsEntry])] (-1) = .error .typeError ∧
    borrowing_to_revenue_flag [("total_revenue", .list [.num 100])] (-1) =
      .ok FLAGS.GREEN := by
  refine ⟨(claim_C10 [] (-1)).1 (by norm_num), ?_, ?_, ?_⟩
  · exact (claim_C10 [] (-1)).2.1 [] [] rfl rfl (by norm_num)
  · exact (claim_C10 [("bs", .list [sampleBsEntry])] (-1)).2.2.1
      [sampleBsEntry] sampleBsEntry (.list [.num 10]) (.list [.num 15]) 10 15
      rfl (by norm_num) (by norm_num) rfl rfl
      (by simp [pySum, sumNums, toNum?]) rfl
      (by simp [pySum, sumNums, toNum?])
  · exact (claim_C10 [("total_revenue", .list [.num 100])] (-1)).2.2.2
      [.num 100] 100 rfl rfl (by norm_num) (by norm_num) rfl (by norm_num)

/-- Claim C10 counterexample: at negative in-range index `-1` with one `bs`
entry, the borrowing ratio is NOT computed for the selected entry as the
claim states: the nested `total_revenue` rejects the negative index, so the
division raises `TypeError` and no ratio is returned. -/
theorem claim_C10_counterexample :
    total_borrowing [("bs", .list [sampleBsEntry])] (-1) = .error .typeError := rfl

/-- Claim C1 counterexample: the engine does raise — with
`total_revenue = [0]`, `borrowing_to_revenue_flag` divides `0.0` by the
zero entry and raises `ZeroDivisionError` instead of returning any value. -/
theorem claim_C1_counterexample :
    borrowing_to_revenue_flag [("total_revenue", .list [.num 0])] 0 =
      .error .zeroDivision := rfl

/-- Claim C1 (amended): the no-exception contract holds only for part of the
engine.  `total_revenue`, `total_revenue_5cr_flag`, `iscr` and `iscr_flag`
always return a value on documents whose relevant fields are well-shaped;
but `latest_financial_index` raises `TypeError` when `financials` is absent,
and `total_borrowing` raises `TypeError` when the selected balance-sheet
entry's nested revenue is missing (`borrowing_to_revenue_flag` additionally
raises on a zero denominator, per the counterexample). -/
theorem claim_C1 (data : Dict) (i : Int) :
    (financialsOk data = true → ∃ v, total_revenue data i = .ok v) ∧
    (financialsOk data = true → ∃ f, total_revenue_5cr_flag data i = .ok f) ∧
    (iscrFieldsOk data = true → ∃ r : ℚ, iscr data i = .ok (.num r)) ∧
    (iscrFieldsOk data = true → ∃ f, iscr_flag data i = .ok f) ∧
    latest_financial_index [("company", .str "acme")] = .error .typeError ∧
    total_borrowing [("bs", .list [.dict
      [("long_term_borrowings", .list [.num 5]),
       ("short_term_borrowings", .list [.num 7])]])] 0 = .error .typeError := by
  refine ⟨fun h => ⟨_, total_revenue_chain data i h⟩,
          fun h => flag5cr_ok data i h,
          fun h => iscr_fields_result data i h,
          fun h => ?_, rfl, rfl⟩
  rcases iscr_flag_ok data i h with h' | h'
  · exact ⟨FLAGS.GREEN, h'⟩
  · exact ⟨FLAGS.RED, h'⟩

/-- Claim C1 witness: the safe fragment returns values on the sample document
(whose financials are well-shaped and whose ISCR fields are absent). -/
theorem claim_C1_witness :
    (∃ v, total_revenue sampleDoc 0 = .ok v) ∧
    (∃ f, total_revenue_5cr_flag sampleDoc 0 = .ok f) ∧
    (∃ r : ℚ, iscr sampleDoc 0 = .ok (.num r)) ∧
    (∃ f, iscr_flag sampleDoc 0 = .ok f) := by
  obtain ⟨h1, h2, h3, h4, -, -⟩ := claim_C1 sampleDoc 0
  exact ⟨h1 rfl, h2 rfl, h3 rfl, h4 rfl⟩

/-- Claim C8: the pipeline computes the financial index once, feeds the same
index to the three independent classifiers, and returns the mapping of their
three results; whenever the index computation and each classifier return,
the assembled result is exactly their values. -/
theorem claim_C8 (data : Dict) (i : Int) (f1 f2 f3 : PyVal)
    (hidx : latest_financial_index data = .ok i)
    (h1 : total_revenue_5cr_flag data i = .ok f1)
    (h2 : borrowing_to_revenue_flag data i = .ok f2)
    (h3 : iscr_flag data i = .ok f3) :
    probe_model_5l_profit data = .ok (.dict [("flags", .dict
      [("TOTAL_REVENUE_5CR_FLAG", f1),
       ("BORROWING_TO_REVENUE_FLAG", f2),
       ("ISCR_FLAG", f3)])]) := by
  unfold probe_model_5l_profit
  rw [hidx]
  simp only [exceptBind_ok, h1, h2, h3]
  rfl

/-- Claim C8 witness: on a document with an empty financials list the index
is 0 and the pipeline assembles RED / AMBER / RED. -/
theorem claim_C8_witness :
    probe_model_5l_profit [("financials", .list [])] = .ok (.dict [("flags", .dict
      [("TOTAL_REVENUE_5CR_FLAG", FLAGS.RED),
       ("BORROWING_TO_REVENUE_FLAG", FLAGS.AMBER),
       ("ISCR_FLAG", FLAGS.RED)])]) :=
  claim_C8 [("financials", .list [])] 0 FLAGS.RED FLAGS.AMBER FLAGS.RED
    rfl rfl rfl rfl

/-- Claim C9: whenever a classifier returns, its value is RED, GREEN or
AMBER; the display-only values MEDIUM_RISK and WHITE are never produced. -/
theorem claim_C9 (data : Dict) (i : Int) (f : PyVal)
    (h : total_revenue_5cr_flag data i = .ok f ∨ iscr_flag data i = .ok f ∨
         borrowing_to_revenue_flag data i = .ok f) :
    (f = FLAGS.RED ∨ f = FLAGS.GREEN ∨ f = FLAGS.AMBER) ∧
    f ≠ FLAGS.MEDIUM_RISK ∧ f ≠ FLAGS.WHITE := by
  have hmem : f = FLAGS.RED ∨ f = FLAGS.GREEN ∨ f = FLAGS.AMBER := by
    rcases h with h | h | h
    · rcases flag5cr_cases data i f h with h' | h'
      · exact Or.inr (Or.inl h')
      · exact Or.inl h'
    · rcases iscrflag_cases data i f h with h' | h'
      · exact Or.inr (Or.inl h')
      · exact Or.inl h'
    · rcases brf_cases data i f h with h' | h'
      · exact Or.inr (Or.inl h')
      · exact Or.inr (Or.inr h')
  refine ⟨hmem, ?_⟩
  rcases hmem with rfl | rfl | rfl <;>
    constructor <;>
      norm_num [FLAGS.RED, FLAGS.GREEN, FLAGS.AMBER, FLAGS.MEDIUM_RISK, FLAGS.WHITE]

/-- Claim C9 witness: on the empty document the revenue flag returns RED,
which is among the three produced values and is neither MEDIUM_RISK nor
WHITE. -/
theorem claim_C9_witness :
    (FLAGS.RED = FLAGS.RED ∨ FLAGS.RED = FLAGS.GREEN ∨ FLAGS.RED = FLAGS.AMBER) ∧
    FLAGS.RED ≠ FLAGS.MEDIUM_RISK ∧ FLAGS.RED ≠ FLAGS.WHITE :=
  claim_C9 [] 0 FLAGS.RED (Or.inl rfl)

end Karbon
